import Mathlib

/-!
Verification of the telemetry-simulator loop of the robot dashboard
(src/main.ts, plus the two JavaScript variants in src/main.js).

Numbers are modelled as rationals; the pseudo-random source
(Math.random(), values in [0,1)) and the sine function used by the
ROTATE state are passed in as explicit arguments, so every definition
is a pure, computable function of its inputs.
-/

namespace RobotDashboard

/-! ## Rolling series and chart data model -/

/-- One push-and-evict on a rolling series: `dataArr.push(value); dataArr.shift()`
(body of `updateModeData` in src/main.ts, and the single-line update in
src/main.js). The new value is appended at the end and the oldest (front)
element is removed. -/
def updateSeries (l : List ℚ) (v : ℚ) : List ℚ := (l ++ [v]).tail

/-- The four chart modes of `ChartDataConfig` in src/main.ts. -/
inductive Mode
  | power
  | voltage
  | current
  | torque
deriving DecidableEq

/-- The three time granularities (`'seconds' | 'minutes' | 'hours'`). -/
inductive Range
  | seconds
  | minutes
  | hours
deriving DecidableEq

/-- Data of a single-line mode: one numeric series per granularity
(`SingleModeData.ranges` in src/main.ts; the static labels are omitted). -/
structure SingleModeData where
  seconds : List ℚ
  minutes : List ℚ
  hours   : List ℚ
deriving DecidableEq

/-- Data of the multi-line torque mode: per granularity, a list of datasets
(FL, FR, RL, RR), each a numeric series (`MultiModeData` in src/main.ts). -/
structure MultiModeData where
  seconds : List (List ℚ)
  minutes : List (List ℚ)
  hours   : List (List ℚ)
deriving DecidableEq

/-- The whole `chartData` object: three single-line modes and the
multi-line torque mode. -/
structure ChartData where
  power   : SingleModeData
  voltage : SingleModeData
  current : SingleModeData
  torque  : MultiModeData
deriving DecidableEq

/-- Aggregation buffer (`DataBuffer` in src/main.ts): one list per metric. -/
structure DataBuffer where
  power   : List ℚ
  voltage : List ℚ
  current : List ℚ
deriving DecidableEq

/-- The empty buffer, as produced by the clearing assignments
`secBuffer.power = []; ...` in src/main.ts. -/
def DataBuffer.empty : DataBuffer := ⟨[], [], []⟩

/-- Mutable simulation state touched by the chart-update part of
`updateTime` in src/main.ts: the chart series, the two aggregation
buffers, and the `lastSecondUpdate` timestamp (milliseconds). -/
structure SimState where
  chart     : ChartData
  secBuffer : DataBuffer
  minBuffer : DataBuffer
  lastSecondUpdate : ℕ
deriving DecidableEq

/-- Push-and-evict on one granularity of a single-line mode. -/
def SingleModeData.updateRange (m : SingleModeData) (r : Range) (v : ℚ) :
    SingleModeData :=
  match r with
  | .seconds => { m with seconds := updateSeries m.seconds v }
  | .minutes => { m with minutes := updateSeries m.minutes v }
  | .hours   => { m with hours   := updateSeries m.hours v }

/-- The `updateModeData` function of src/main.ts: for the multi-line torque
mode it returns early (`if (chartData[mode].type === 'multi') return;`),
otherwise it pushes the value and shifts the oldest one out of the
selected range's series. -/
def updateModeData (cd : ChartData) (mode : Mode) (r : Range) (v : ℚ) :
    ChartData :=
  match mode with
  | .torque  => cd
  | .power   => { cd with power   := cd.power.updateRange r v }
  | .voltage => { cd with voltage := cd.voltage.updateRange r v }
  | .current => { cd with current := cd.current.updateRange r v }

/-! ## The once-per-second chart update (steps A-C of `updateTime`) -/

/-- Step A of the gated block in `updateTime` (src/main.ts): push the three
fresh samples into the seconds-level series and collect them in the
seconds aggregation buffer. -/
def pushSeconds (st : SimState) (simPower simVoltage simCurrent : ℚ) :
    SimState :=
  let cd := updateModeData st.chart .power .seconds simPower
  let cd := updateModeData cd .voltage .seconds simVoltage
  let cd := updateModeData cd .current .seconds simCurrent
  { st with
    chart := cd
    secBuffer :=
      ⟨st.secBuffer.power ++ [simPower],
       st.secBuffer.voltage ++ [simVoltage],
       st.secBuffer.current ++ [simCurrent]⟩ }

/-- Step B: when the seconds buffer has reached 60 samples, average each
metric (`reduce((a,b) => a+b, 0) / 60`), push the averages into the
minutes-level series, collect them in the minutes buffer, and clear the
seconds buffer. -/
def stepMinutes (st : SimState) : SimState :=
  if 60 ≤ st.secBuffer.power.length then
    let avgPower   := st.secBuffer.power.sum / 60
    let avgVoltage := st.secBuffer.voltage.sum / 60
    let avgCurrent := st.secBuffer.current.sum / 60
    let cd := updateModeData st.chart .power .minutes avgPower
    let cd := updateModeData cd .voltage .minutes avgVoltage
    let cd := updateModeData cd .current .minutes avgCurrent
    { st with
      chart := cd
      secBuffer := DataBuffer.empty
      minBuffer :=
        ⟨st.minBuffer.power ++ [avgPower],
         st.minBuffer.voltage ++ [avgVoltage],
         st.minBuffer.current ++ [avgCurrent]⟩ }
  else st

/-- Step C: when the minutes buffer has reached 60 samples, average each
metric, push the averages into the hours-level series, and clear the
minutes buffer. -/
def stepHours (st : SimState) : SimState :=
  if 60 ≤ st.minBuffer.power.length then
    let avgPower   := st.minBuffer.power.sum / 60
    let avgVoltage := st.minBuffer.voltage.sum / 60
    let avgCurrent := st.minBuffer.current.sum / 60
    let cd := updateModeData st.chart .power .hours avgPower
    let cd := updateModeData cd .voltage .hours avgVoltage
    let cd := updateModeData cd .current .hours avgCurrent
    { st with chart := cd, minBuffer := DataBuffer.empty }
  else st

/-- The body of the `if (Date.now() - lastSecondUpdate >= 1000)` block:
steps A, B and C in program order. -/
def secondTick (st : SimState) (simPower simVoltage simCurrent : ℚ) :
    SimState :=
  stepHours (stepMinutes (pushSeconds st simPower simVoltage simCurrent))

/-- The chart-update part of one `updateTime` tick (src/main.ts): the series
and buffers are only touched when at least 1000 ms have passed since
`lastSecondUpdate`, in which case `lastSecondUpdate` is set to the current
time. -/
def chartTick (st : SimState) (nowMs : ℕ)
    (simPower simVoltage simCurrent : ℚ) : SimState :=
  if st.lastSecondUpdate + 1000 ≤ nowMs then
    { secondTick st simPower simVoltage simCurrent with
      lastSecondUpdate := nowMs }
  else st

/-- The real-time chart update of the first src/main.js variant: the new
value is pushed (and the oldest shifted out) only when exactly one dataset
is currently displayed (`if (ds.length === 1)`); a multi-line (torque)
view, which has four datasets, is left untouched. -/
def jsChartUpdate (datasets : List (List ℚ)) (v : ℚ) : List (List ℚ) :=
  if datasets.length = 1 then [updateSeries datasets.headI v] else datasets

/-! ## Motion cycle state machine (section 3 of `updateTime`, src/main.ts;
identical in the first src/main.js variant) -/

/-- `const cycleDuration = 4000` (milliseconds per state). -/
def cycleDuration : ℕ := 4000

/-- Number of states of the cycle (`% 5`). -/
def stateCount : ℕ := 5

/-- `const cycleIndex = Math.floor(nowMs / cycleDuration) % 5`. -/
def cycleIndex (nowMs : ℕ) : ℕ := nowMs / cycleDuration % stateCount

/-- The switch statement over `cycleIndex`: pre-noise (drive, strafe, turn)
setpoints. The sine used by the ROT state (`Math.sin(nowMs / 500) * 0.8`)
is supplied as an explicit function argument. -/
def motionSetpoint (sine : ℚ → ℚ) (nowMs : ℕ) : ℚ × ℚ × ℚ :=
  match cycleIndex nowMs with
  | 0 => (0, 0, 0)
  | 1 => (0.8, 0, 0)
  | 2 => (-0.5, 0, 0)
  | 3 => (0, -0.7, 0)
  | _ => (0, 0, sine ((nowMs : ℚ) / 500) * 0.8)

/-- Per-state setpoint table written out as the spec describes it: IDLE,
FWD, BWD, LEFT, and ROT with a sine-valued turn. Used to compare the
switch statement against a plain table lookup. -/
def setpointTable (sine : ℚ → ℚ) (nowMs : ℕ) : ℕ → ℚ × ℚ × ℚ
  | 0 => (0, 0, 0)
  | 1 => (0.8, 0, 0)
  | 2 => (-0.5, 0, 0)
  | 3 => (0, -0.7, 0)
  | _ => (0, 0, sine ((nowMs : ℚ) / 500) * 0.8)

/-- `const cycleDuration = 3000` (3 seconds per state) of the second
src/main.js variant's state machine. -/
def cycleDurationB : ℕ := 3000

/-- Number of states of the second src/main.js variant's cycle (`% 6`). -/
def stateCountB : ℕ := 6

/-- `const cycleIndex = Math.floor(nowMs / cycleDuration) % 6` of the second
src/main.js variant. -/
def cycleIndexB (nowMs : ℕ) : ℕ := nowMs / cycleDurationB % stateCountB

/-- The switch statement of the second src/main.js variant: IDLE, FORWARD
(0.8), BACKWARD (-0.6), STRAFE LEFT (-0.8), STRAFE RIGHT (0.8), and a
ROTATE state whose turn is the square wave 0.9 when `nowMs % 3000 < 1500`
and -0.9 otherwise — not a sine of the timestamp. -/
def motionSetpointB (nowMs : ℕ) : ℚ × ℚ × ℚ :=
  match cycleIndexB nowMs with
  | 0 => (0, 0, 0)
  | 1 => (0.8, 0, 0)
  | 2 => (-0.6, 0, 0)
  | 3 => (0, -0.8, 0)
  | 4 => (0, 0.8, 0)
  | _ => (0, 0, if nowMs % 3000 < 1500 then 0.9 else -0.9)

/-- Per-state setpoint table of the second src/main.js variant written out
as a plain lookup, to compare the switch statement against. -/
def setpointTableB (nowMs : ℕ) : ℕ → ℚ × ℚ × ℚ
  | 0 => (0, 0, 0)
  | 1 => (0.8, 0, 0)
  | 2 => (-0.6, 0, 0)
  | 3 => (0, -0.8, 0)
  | 4 => (0, 0.8, 0)
  | _ => (0, 0, if nowMs % 3000 < 1500 then 0.9 else -0.9)

/-- The organic-noise addition `x += (Math.random() - 0.5) * 0.05`, with the
random draw `r` passed in. -/
def addNoise (x r : ℚ) : ℚ := x + (r - 0.5) * 0.05

/-- The emitted (post-noise) motion command of one tick: the setpoint of the
current cycle state with one noise draw added to each axis. -/
def emittedMotion (sine : ℚ → ℚ) (nowMs : ℕ) (rd rs rt : ℚ) : ℚ × ℚ × ℚ :=
  let p := motionSetpoint sine nowMs
  (addNoise p.1 rd, addNoise p.2.1 rs, addNoise p.2.2 rt)

/-! ## Electrical simulation (section 4 of `updateTime`, src/main.ts) -/

/-- `const baseVoltage = 24.8`. -/
def baseVoltage : ℚ := 24.8

/-- `simVoltage = baseVoltage - (|drive| + |strafe|) * 1.5 +
((Math.random() - 0.5) * 0.1)`, with the random draw `r` passed in. -/
def simVoltage (drive strafe r : ℚ) : ℚ :=
  baseVoltage - (|drive| + |strafe|) * 1.5 + (r - 0.5) * 0.1

/-- `simCurrent = 1.2 + (|drive| + |strafe| + |turn|) * 20 +
((Math.random() - 0.5) * 0.5)`. -/
def simCurrent (drive strafe turn r : ℚ) : ℚ :=
  1.2 + (|drive| + |strafe| + |turn|) * 20 + (r - 0.5) * 0.5

/-- Lower end of the voltage chart scale band:
`createModeData('Voltage', ..., 'V', 20, 24, ...)` in src/main.ts. -/
def voltageChartMin : ℚ := 20

/-- Upper end of the voltage chart scale band. -/
def voltageChartMax : ℚ := 24

/-! ## Kinematics projection -/

/-- The inverse-kinematics mixing of src/main.ts (constants from
cek_tombol.py): raw wheel rates (w1 FR, w2 FL, w3 RL, w4 RR) from
(drive, strafe, turn); `vx = strafe`, `vy = drive`, `vtheta = turn`. -/
def tsWheelsRaw (drive strafe turn : ℚ) : ℚ × ℚ × ℚ × ℚ :=
  let vx := strafe
  let vy := drive
  let vt := turn
  let sin_a : ℚ := 0.7071
  let cos_a : ℚ := 0.7071
  let L : ℚ := 0.208
  let r_wheel : ℚ := 0.06
  ((-cos_a * vx + sin_a * vy + L * vt) / r_wheel,
   (-cos_a * vx - sin_a * vy + L * vt) / r_wheel,
   (cos_a * vx - sin_a * vy + L * vt) / r_wheel,
   (cos_a * vx + sin_a * vy + L * vt) / r_wheel)

/-- `maxVel = Math.max(|w1|, |w2|, |w3|, |w4|, 10.0)` in src/main.ts. -/
def tsMaxVel (w : ℚ × ℚ × ℚ × ℚ) : ℚ :=
  max |w.1| (max |w.2.1| (max |w.2.2.1| (max |w.2.2.2| 10)))

/-- Normalized wheel outputs (fl, fr, rl, rr) of src/main.ts:
each raw rate divided by `maxVel`. -/
def tsWheels (drive strafe turn : ℚ) : ℚ × ℚ × ℚ × ℚ :=
  let w := tsWheelsRaw drive strafe turn
  let m := tsMaxVel w
  (w.2.1 / m, w.1 / m, w.2.2.1 / m, w.2.2.2 / m)

/-- The simplified mecanum mixing of src/main.js:
`fl = d + s + t; fr = d - s - t; rl = d - s + t; rr = d + s - t`. -/
def jsWheelsRaw (drive strafe turn : ℚ) : ℚ × ℚ × ℚ × ℚ :=
  (drive + strafe + turn,
   drive - strafe - turn,
   drive - strafe + turn,
   drive + strafe - turn)

/-- `maxM = Math.max(|fl|, |fr|, |rl|, |rr|, 1.0)` in src/main.js. -/
def jsMaxM (w : ℚ × ℚ × ℚ × ℚ) : ℚ :=
  max |w.1| (max |w.2.1| (max |w.2.2.1| (max |w.2.2.2| 1)))

/-- Normalized wheel outputs of the src/main.js kinematics. -/
def jsWheels (drive strafe turn : ℚ) : ℚ × ℚ × ℚ × ℚ :=
  let w := jsWheelsRaw drive strafe turn
  let m := jsMaxM w
  (w.1 / m, w.2.1 / m, w.2.2.1 / m, w.2.2.2 / m)

/-! ## Dense-series generator (`generateDenseData`) -/

/-- `val = Math.max(min, Math.min(max, val))`. -/
def clampQ (lo hi x : ℚ) : ℚ := max lo (min hi x)

/-- `parseFloat(val.toFixed(2))`: rounding to two decimal places. -/
def roundTo2 (x : ℚ) : ℚ := (round (x * 100) : ℤ) / 100

/-- One step of the walk: add the walk perturbation
`(rw - 0.5) * (max - min) * 0.1`, add the jitter perturbation
`(rj - 0.5) * (max - min) * 0.05`, then clamp to [min, max]. -/
def denseStep (mn mx rw rj val : ℚ) : ℚ :=
  clampQ mn mx (val + (rw - 0.5) * (mx - mn) * 0.1 + (rj - 0.5) * (mx - mn) * 0.05)

/-- The generator loop: at index `i` with `fuel` points left, record the
2-decimal rounding of the stepped value and continue from the clamped
(but unrounded) value, exactly as the source keeps `val` across steps. -/
def denseGo (mn mx : ℚ) (rwalk rjit : ℕ → ℚ) : ℕ → ℕ → ℚ → List ℚ
  | _, 0, _ => []
  | i, n + 1, val =>
    let v := denseStep mn mx (rwalk i) (rjit i) val
    roundTo2 v :: denseGo mn mx rwalk rjit (i + 1) n v

/-- `generateDenseData(points, min, max, initialValue)` of src/main.ts and
src/main.js, with the two random streams passed in. The starting value is
`initialValue || (min + max) / 2`: a falsy (zero) initial value is
replaced by the midpoint of the range. -/
def generateDenseData (points : ℕ) (mn mx initialValue : ℚ)
    (rwalk rjit : ℕ → ℚ) : List ℚ :=
  denseGo mn mx rwalk rjit 0 points
    (if initialValue = 0 then (mn + mx) / 2 else initialValue)

/-! ## Error handling of the tick (section 7 of the spec) -/

/-- Outcome of one timer callback. `caughtLogged`: the exception was caught
and written to the console; `caughtLoggedPanel`: caught and additionally
written to the visible log panel; `fatal`: the exception escaped the tick
function into the timer machinery. -/
inductive TickOutcome
  | completed : TickOutcome
  | caughtLogged : String → TickOutcome
  | caughtLoggedPanel : String → TickOutcome
  | fatal : String → TickOutcome
deriving DecidableEq

/-- An outcome is non-fatal when the recurring timer keeps running after it. -/
def TickOutcome.nonfatal : TickOutcome → Bool
  | .fatal _ => false
  | _ => true

/-- The `updateTime` of src/main.ts: the entire body is inside
`try { ... } catch (err) { console.error(...) }`, so a throwing body is
caught and logged. -/
def tickTS (body : Except String Unit) : TickOutcome :=
  match body with
  | .ok _ => .completed
  | .error e => .caughtLogged e

/-- The first `updateTime` variant of src/main.js: the body is inside a
try/catch whose handler logs to the console and appends an ERROR line to
the terminal log panel. -/
def tickJsA (body : Except String Unit) : TickOutcome :=
  match body with
  | .ok _ => .completed
  | .error e => .caughtLoggedPanel e

/-- The second `updateTime` variant of src/main.js (the block after the
document separator): its body has no try/catch at all, so a thrown
exception propagates out of the tick. -/
def tickJsB (body : Except String Unit) : TickOutcome :=
  match body with
  | .ok _ => .completed
  | .error e => .fatal e

/-! ## Helper lemmas -/

/-- A push-and-evict never changes the length of a series. -/
theorem updateSeries_length (l : List ℚ) (v : ℚ) :
    (updateSeries l v).length = l.length := by
  simp [updateSeries]

/-- Step A leaves the minutes/hours series, the minutes buffer untouched and
appends the three fresh samples to the seconds buffer. -/
theorem pushSeconds_spec (st : SimState) (p v c : ℚ) :
    (pushSeconds st p v c).secBuffer =
      ⟨st.secBuffer.power ++ [p], st.secBuffer.voltage ++ [v],
       st.secBuffer.current ++ [c]⟩ ∧
    (pushSeconds st p v c).minBuffer = st.minBuffer ∧
    (pushSeconds st p v c).chart.power.minutes = st.chart.power.minutes ∧
    (pushSeconds st p v c).chart.voltage.minutes = st.chart.voltage.minutes ∧
    (pushSeconds st p v c).chart.current.minutes = st.chart.current.minutes ∧
    (pushSeconds st p v c).chart.power.hours = st.chart.power.hours ∧
    (pushSeconds st p v c).chart.voltage.hours = st.chart.voltage.hours ∧
    (pushSeconds st p v c).chart.current.hours = st.chart.current.hours := by
  simp [pushSeconds, updateModeData, SingleModeData.updateRange]

/-- When the seconds buffer has reached 60 samples, step B pushes the three
buffer averages into the minutes series, collects them in the minutes
buffer, and clears the seconds buffer; hours series are untouched. -/
theorem stepMinutes_fires (st : SimState)
    (h : 60 ≤ st.secBuffer.power.length) :
    (stepMinutes st).chart.power.minutes =
      updateSeries st.chart.power.minutes (st.secBuffer.power.sum / 60) ∧
    (stepMinutes st).chart.voltage.minutes =
      updateSeries st.chart.voltage.minutes (st.secBuffer.voltage.sum / 60) ∧
    (stepMinutes st).chart.current.minutes =
      updateSeries st.chart.current.minutes (st.secBuffer.current.sum / 60) ∧
    (stepMinutes st).secBuffer = DataBuffer.empty ∧
    (stepMinutes st).minBuffer =
      ⟨st.minBuffer.power ++ [st.secBuffer.power.sum / 60],
       st.minBuffer.voltage ++ [st.secBuffer.voltage.sum / 60],
       st.minBuffer.current ++ [st.secBuffer.current.sum / 60]⟩ ∧
    (stepMinutes st).chart.power.hours = st.chart.power.hours ∧
    (stepMinutes st).chart.voltage.hours = st.chart.voltage.hours ∧
    (stepMinutes st).chart.current.hours = st.chart.current.hours := by
  simp [stepMinutes, if_pos h, updateModeData, SingleModeData.updateRange]

/-- Step C never touches the seconds/minutes series or the seconds buffer. -/
theorem stepHours_preserves (st : SimState) :
    (stepHours st).chart.power.minutes = st.chart.power.minutes ∧
    (stepHours st).chart.voltage.minutes = st.chart.voltage.minutes ∧
    (stepHours st).chart.current.minutes = st.chart.current.minutes ∧
    (stepHours st).secBuffer = st.secBuffer := by
  unfold stepHours
  split <;> simp [updateModeData, SingleModeData.updateRange]

/-- When the minutes buffer has reached 60 samples, step C pushes the three
buffer averages into the hours series and clears the minutes buffer. -/
theorem stepHours_fires (st : SimState)
    (h : 60 ≤ st.minBuffer.power.length) :
    (stepHours st).chart.power.hours =
      updateSeries st.chart.power.hours (st.minBuffer.power.sum / 60) ∧
    (stepHours st).chart.voltage.hours =
      updateSeries st.chart.voltage.hours (st.minBuffer.voltage.sum / 60) ∧
    (stepHours st).chart.current.hours =
      updateSeries st.chart.current.hours (st.minBuffer.current.sum / 60) ∧
    (stepHours st).minBuffer = DataBuffer.empty := by
  simp [stepHours, if_pos h, updateModeData, SingleModeData.updateRange]

/-! ## Claims -/

/-- C1: after exactly 60 seconds-level samples have accumulated (59 buffered
plus the one this tick pushes), the tick appends exactly one minutes-level
value to each single-line minutes series, equal to the arithmetic mean of
those 60 inputs (their sum divided by 60), and the seconds buffer becomes
empty; when the minutes buffer likewise reaches 60 samples, the same 60:1
averaging appends one value to each hours series and empties the minutes
buffer. -/
theorem c1_aggregation_60_to_1 (st : SimState) (p v c : ℚ)
    (hp : st.secBuffer.power.length = 59)
    (hv : st.secBuffer.voltage.length = 59)
    (hc : st.secBuffer.current.length = 59) :
    ((st.secBuffer.power ++ [p]).length = 60 ∧
     (st.secBuffer.voltage ++ [v]).length = 60 ∧
     (st.secBuffer.current ++ [c]).length = 60 ∧
     (secondTick st p v c).chart.power.minutes =
       updateSeries st.chart.power.minutes
         ((st.secBuffer.power ++ [p]).sum / 60) ∧
     (secondTick st p v c).chart.voltage.minutes =
       updateSeries st.chart.voltage.minutes
         ((st.secBuffer.voltage ++ [v]).sum / 60) ∧
     (secondTick st p v c).chart.current.minutes =
       updateSeries st.chart.current.minutes
         ((st.secBuffer.current ++ [c]).sum / 60) ∧
     (secondTick st p v c).secBuffer = DataBuffer.empty) ∧
    (st.minBuffer.power.length = 59 →
     (st.minBuffer.power ++ [(st.secBuffer.power ++ [p]).sum / 60]).length = 60 ∧
     (secondTick st p v c).chart.power.hours =
       updateSeries st.chart.power.hours
         ((st.minBuffer.power ++ [(st.secBuffer.power ++ [p]).sum / 60]).sum / 60) ∧
     (secondTick st p v c).chart.voltage.hours =
       updateSeries st.chart.voltage.hours
         ((st.minBuffer.voltage ++ [(st.secBuffer.voltage ++ [v]).sum / 60]).sum / 60) ∧
     (secondTick st p v c).chart.current.hours =
       updateSeries st.chart.current.hours
         ((st.minBuffer.current ++ [(st.secBuffer.current ++ [c]).sum / 60]).sum / 60) ∧
     (secondTick st p v c).minBuffer = DataBuffer.empty) := by
  obtain ⟨hb, hmb, hm1, hm2, hm3, hh1, hh2, hh3⟩ := pushSeconds_spec st p v c
  have hlen : 60 ≤ (pushSeconds st p v c).secBuffer.power.length := by
    rw [hb]; simp [hp]
  obtain ⟨sm1, sm2, sm3, sm4, sm5, sm6, sm7, sm8⟩ :=
    stepMinutes_fires (pushSeconds st p v c) hlen
  obtain ⟨sh1, sh2, sh3, sh4⟩ := stepHours_preserves (stepMinutes (pushSeconds st p v c))
  rw [hb] at sm1 sm2 sm3 sm5
  rw [hm1] at sm1
  rw [hm2] at sm2
  rw [hm3] at sm3
  rw [hmb] at sm5
  refine ⟨⟨by simp [hp], by simp [hv], by simp [hc], ?_, ?_, ?_, ?_⟩, ?_⟩
  · rw [show secondTick st p v c =
        stepHours (stepMinutes (pushSeconds st p v c)) from rfl, sh1, sm1]
  · rw [show secondTick st p v c =
        stepHours (stepMinutes (pushSeconds st p v c)) from rfl, sh2, sm2]
  · rw [show secondTick st p v c =
        stepHours (stepMinutes (pushSeconds st p v c)) from rfl, sh3, sm3]
  · rw [show secondTick st p v c =
        stepHours (stepMinutes (pushSeconds st p v c)) from rfl, sh4, sm4]
  · intro hmin
    have hlen2 : 60 ≤ (stepMinutes (pushSeconds st p v c)).minBuffer.power.length := by
      rw [sm5]; simp [hmin]
    obtain ⟨th1, th2, th3, th4⟩ :=
      stepHours_fires (stepMinutes (pushSeconds st p v c)) hlen2
    rw [sm5] at th1 th2 th3
    rw [sm6, hh1] at th1
    rw [sm7, hh2] at th2
    rw [sm8, hh3] at th3
    exact ⟨by simp [hmin], th1, th2, th3, th4⟩

/-- A concrete state whose aggregation buffers hold 59 samples each, used to
instantiate the aggregation theorem. -/
def aggState : SimState :=
  { chart :=
      { power := ⟨[], [], []⟩, voltage := ⟨[], [], []⟩, current := ⟨[], [], []⟩,
        torque := ⟨[], [], []⟩ }
    secBuffer := ⟨List.replicate 59 1, List.replicate 59 1, List.replicate 59 1⟩
    minBuffer := ⟨List.replicate 59 2, List.replicate 59 2, List.replicate 59 2⟩
    lastSecondUpdate := 0 }

/-- Witness for C1 at a concrete state with 59 buffered samples per metric. -/
theorem c1_aggregation_60_to_1_witness :
    (aggState.secBuffer.power.length = 59 ∧
     aggState.secBuffer.voltage.length = 59 ∧
     aggState.secBuffer.current.length = 59) ∧
    (((aggState.secBuffer.power ++ [1]).length = 60 ∧
      (aggState.secBuffer.voltage ++ [1]).length = 60 ∧
      (aggState.secBuffer.current ++ [1]).length = 60 ∧
      (secondTick aggState 1 1 1).chart.power.minutes =
        updateSeries aggState.chart.power.minutes
          ((aggState.secBuffer.power ++ [1]).sum / 60) ∧
      (secondTick aggState 1 1 1).chart.voltage.minutes =
        updateSeries aggState.chart.voltage.minutes
          ((aggState.secBuffer.voltage ++ [1]).sum / 60) ∧
      (secondTick aggState 1 1 1).chart.current.minutes =
        updateSeries aggState.chart.current.minutes
          ((aggState.secBuffer.current ++ [1]).sum / 60) ∧
      (secondTick aggState 1 1 1).secBuffer = DataBuffer.empty) ∧
     (aggState.minBuffer.power.length = 59 →
      (aggState.minBuffer.power ++ [(aggState.secBuffer.power ++ [1]).sum / 60]).length = 60 ∧
      (secondTick aggState 1 1 1).chart.power.hours =
        updateSeries aggState.chart.power.hours
          ((aggState.minBuffer.power ++
            [(aggState.secBuffer.power ++ [1]).sum / 60]).sum / 60) ∧
      (secondTick aggState 1 1 1).chart.voltage.hours =
        updateSeries aggState.chart.voltage.hours
          ((aggState.minBuffer.voltage ++
            [(aggState.secBuffer.voltage ++ [1]).sum / 60]).sum / 60) ∧
      (secondTick aggState 1 1 1).chart.current.hours =
        updateSeries aggState.chart.current.hours
          ((aggState.minBuffer.current ++
            [(aggState.secBuffer.current ++ [1]).sum / 60]).sum / 60) ∧
      (secondTick aggState 1 1 1).minBuffer = DataBuffer.empty)) :=
  ⟨⟨by simp [aggState], by simp [aggState], by simp [aggState]⟩,
   c1_aggregation_60_to_1 aggState 1 1 1 (by simp [aggState])
     (by simp [aggState]) (by simp [aggState])⟩

/-- The real-time chart update of the first src/main.js variant preserves
the length of every displayed dataset. -/
theorem jsChartUpdate_lengths (ds : List (List ℚ)) (x : ℚ) :
    (jsChartUpdate ds x).map List.length = ds.map List.length := by
  unfold jsChartUpdate
  split_ifs with h
  · cases ds with
    | nil => simp at h
    | cons d tl =>
      cases tl with
      | nil => simp [updateSeries_length]
      | cons e tl2 => simp at h
  · rfl

/-- C2: for every tick and every single-line rolling series (power, voltage,
current at each granularity), the series length after the tick's
push-and-evict equals its length before the tick (and likewise in the
src/main.js variant's chart update), so the fixed capacity (60 elements
for seconds and minutes, 25 for hours) is invariant across the series'
lifetime. -/
theorem c2_series_length_invariant (st : SimState) (nowMs : ℕ) (p v c : ℚ)
    (ds : List (List ℚ)) (x : ℚ) :
    (jsChartUpdate ds x).map List.length = ds.map List.length ∧
    (chartTick st nowMs p v c).chart.power.seconds.length =
      st.chart.power.seconds.length ∧
    (chartTick st nowMs p v c).chart.power.minutes.length =
      st.chart.power.minutes.length ∧
    (chartTick st nowMs p v c).chart.power.hours.length =
      st.chart.power.hours.length ∧
    (chartTick st nowMs p v c).chart.voltage.seconds.length =
      st.chart.voltage.seconds.length ∧
    (chartTick st nowMs p v c).chart.voltage.minutes.length =
      st.chart.voltage.minutes.length ∧
    (chartTick st nowMs p v c).chart.voltage.hours.length =
      st.chart.voltage.hours.length ∧
    (chartTick st nowMs p v c).chart.current.seconds.length =
      st.chart.current.seconds.length ∧
    (chartTick st nowMs p v c).chart.current.minutes.length =
      st.chart.current.minutes.length ∧
    (chartTick st nowMs p v c).chart.current.hours.length =
      st.chart.current.hours.length := by
  refine ⟨jsChartUpdate_lengths ds x, ?_⟩
  unfold chartTick secondTick stepHours stepMinutes pushSeconds
  dsimp only
  split_ifs <;>
    simp [updateModeData, SingleModeData.updateRange, updateSeries_length]

/-- C9: the real-time tick update never modifies any multi-line (torque)
series: the per-tick series update returns early for the multi-line mode,
the tick only feeds the three single-line modes, and the JS variant only
pushes when exactly one dataset is displayed, so the four torque datasets
at every granularity retain exactly their values across every tick. -/
theorem c9_torque_series_untouched :
    (∀ (st : SimState) (nowMs : ℕ) (p v c : ℚ),
      (chartTick st nowMs p v c).chart.torque = st.chart.torque) ∧
    (∀ (cd : ChartData) (r : Range) (x : ℚ),
      updateModeData cd Mode.torque r x = cd) ∧
    (∀ (d1 d2 d3 d4 : List ℚ) (x : ℚ),
      jsChartUpdate [d1, d2, d3, d4] x = [d1, d2, d3, d4]) := by
  refine ⟨?_, fun _ _ _ => rfl, fun _ _ _ _ _ => by simp [jsChartUpdate]⟩
  intro st nowMs p v c
  unfold chartTick secondTick stepHours stepMinutes pushSeconds
  dsimp only
  split_ifs <;>
    simp [updateModeData, SingleModeData.updateRange]

/-- C10: calling the dense-series generator with an initial value of 0 (the
falsy number) makes the walk start from the midpoint of the range: the
output is identical to calling it with the midpoint itself. -/
theorem c10_zero_initial_starts_from_midpoint (n : ℕ) (mn mx : ℚ)
    (rwalk rjit : ℕ → ℚ) :
    generateDenseData n mn mx 0 rwalk rjit
      = generateDenseData n mn mx ((mn + mx) / 2) rwalk rjit := by
  unfold generateDenseData
  simp [ite_self]

/-- C3 counterexample: the two cited state machines do not share one fixed
per-state table: at the same timestamp 6000 ms the main.ts machine is in
state 1 (FWD, drive 0.8; the sine argument is irrelevant in that state)
while the second src/main.js machine is in state 2 (BACKWARD, drive
-0.6), so their pre-noise setpoints differ; moreover the second machine's
ROTATE turn is the two-valued square wave 0.9 / -0.9 on `nowMs mod 3000`
— its magnitude 0.9 even exceeds the 0.8 amplitude of the sine-valued
turn the claim asserts — so the setpoint does not match a fixed table
with a sine-valued ROTATE turn. -/
theorem c3_counterexample_variant_tables_disagree :
    cycleIndex 6000 = 1 ∧
    cycleIndexB 6000 = 2 ∧
    motionSetpoint (fun _ => 0) 6000 = (0.8, 0, 0) ∧
    motionSetpointB 6000 = (-0.6, 0, 0) ∧
    motionSetpoint (fun _ => 0) 6000 ≠ motionSetpointB 6000 ∧
    motionSetpointB 15000 = (0, 0, 0.9) ∧
    motionSetpointB 16500 = (0, 0, -0.9) ∧
    ¬ |(motionSetpointB 15000).2.2| ≤ 0.8 := by
  refine ⟨rfl, rfl, rfl, rfl, ?_, rfl, rfl, ?_⟩
  · rw [show motionSetpoint (fun _ => 0) 6000 = (0.8, 0, 0) from rfl,
       show motionSetpointB 6000 = (-0.6, 0, 0) from rfl]
    simp only [Prod.mk.injEq, ne_eq, not_and]
    intro h
    norm_num at h
  · rw [show motionSetpointB 15000 = (0, 0, 0.9) from rfl]
    show ¬ |(0.9 : ℚ)| ≤ 0.8
    rw [abs_of_pos (by norm_num : (0:ℚ) < 0.9)]
    norm_num

/-- C3 amended: in each cited variant the pre-noise motion setpoint is a
deterministic pure function of the timestamp, with cycle index equal to
floor(now / cycleDurationMs) mod stateCount for that variant's constants
(4000 ms and 5 states in main.ts and the first src/main.js variant;
3000 ms and 6 states in the second src/main.js variant), and the setpoint
matches that variant's own fixed per-state table — with the ROTATE turn
given by the sine of the timestamp in the former and by the ±0.9 square
wave on `nowMs mod 3000` in the latter; the two tables differ. -/
theorem c3_amended_setpoint_per_variant :
    (∀ (sine : ℚ → ℚ) (t t' : ℕ), t = t' →
      motionSetpoint sine t = motionSetpoint sine t') ∧
    (∀ (sine : ℚ → ℚ) (t : ℕ),
      cycleIndex t = t / 4000 % 5 ∧
      motionSetpoint sine t = setpointTable sine t (cycleIndex t)) ∧
    (∀ t t' : ℕ, t = t' → motionSetpointB t = motionSetpointB t') ∧
    (∀ t : ℕ,
      cycleIndexB t = t / 3000 % 6 ∧
      motionSetpointB t = setpointTableB t (cycleIndexB t)) := by
  refine ⟨fun sine t t' h => by rw [h], fun sine t => ⟨rfl, ?_⟩,
          fun t t' h => by rw [h], fun t => ⟨rfl, ?_⟩⟩
  · unfold motionSetpoint setpointTable
    rcases cycleIndex t with _ | _ | _ | _ | n <;> rfl
  · unfold motionSetpointB setpointTableB
    rcases cycleIndexB t with _ | _ | _ | _ | _ | n <;> rfl

/-- Witness for the amended C3: determinism of the main.ts setpoint at the
concrete timestamp 4000 ms with the zero sine, determinism of the second
variant's setpoint at 6000 ms, and both table matches at those inputs. -/
theorem c3_amended_setpoint_per_variant_witness :
    (motionSetpoint (fun _ => 0) 4000 = motionSetpoint (fun _ => 0) 4000 ∧
     cycleIndex 4000 = 4000 / 4000 % 5 ∧
     motionSetpoint (fun _ => 0) 4000 =
       setpointTable (fun _ => 0) 4000 (cycleIndex 4000)) ∧
    (motionSetpointB 6000 = motionSetpointB 6000 ∧
     cycleIndexB 6000 = 6000 / 3000 % 6 ∧
     motionSetpointB 6000 = setpointTableB 6000 (cycleIndexB 6000)) :=
  ⟨⟨c3_amended_setpoint_per_variant.1 (fun _ => 0) 4000 4000 rfl,
    c3_amended_setpoint_per_variant.2.1 (fun _ => 0) 4000⟩,
   ⟨c3_amended_setpoint_per_variant.2.2.1 6000 6000 rfl,
    c3_amended_setpoint_per_variant.2.2.2 6000⟩⟩

/-- Dividing by a larger positive denominator keeps the quotient's absolute
value at most one. -/
theorem abs_div_le_one_of_abs_le (a m : ℚ) (h1 : |a| ≤ m) (h2 : 0 < m) :
    |a / m| ≤ 1 := by
  rw [abs_div, abs_of_pos h2]
  exact div_le_one_of_le₀ h1 h2.le

/-- The normalization divisor of src/main.ts dominates every raw wheel rate
and is at least 10. -/
theorem tsMaxVel_spec (w : ℚ × ℚ × ℚ × ℚ) :
    |w.1| ≤ tsMaxVel w ∧ |w.2.1| ≤ tsMaxVel w ∧ |w.2.2.1| ≤ tsMaxVel w ∧
    |w.2.2.2| ≤ tsMaxVel w ∧ 0 < tsMaxVel w := by
  unfold tsMaxVel
  refine ⟨le_max_left _ _,
    le_max_of_le_right (le_max_left _ _),
    le_max_of_le_right (le_max_of_le_right (le_max_left _ _)),
    le_max_of_le_right (le_max_of_le_right (le_max_of_le_right (le_max_left _ _))),
    lt_of_lt_of_le (by norm_num)
      (le_max_of_le_right (le_max_of_le_right (le_max_of_le_right (le_max_right _ _))))⟩

/-- The normalization divisor of src/main.js dominates every raw wheel rate
and is at least 1. -/
theorem jsMaxM_spec (w : ℚ × ℚ × ℚ × ℚ) :
    |w.1| ≤ jsMaxM w ∧ |w.2.1| ≤ jsMaxM w ∧ |w.2.2.1| ≤ jsMaxM w ∧
    |w.2.2.2| ≤ jsMaxM w ∧ 0 < jsMaxM w := by
  unfold jsMaxM
  refine ⟨le_max_left _ _,
    le_max_of_le_right (le_max_left _ _),
    le_max_of_le_right (le_max_of_le_right (le_max_left _ _)),
    le_max_of_le_right (le_max_of_le_right (le_max_of_le_right (le_max_left _ _))),
    lt_of_lt_of_le (by norm_num)
      (le_max_of_le_right (le_max_of_le_right (le_max_of_le_right (le_max_right _ _))))⟩

/-- C4: for every motion command, after the fixed linear wheel mixing and
normalization by the maximum observed magnitude (with its floor of 10.0
in src/main.ts and 1.0 in src/main.js), each of the four normalized wheel
outputs has absolute value at most 1. -/
theorem c4_normalized_wheels_bounded (d s t : ℚ) :
    (|(tsWheels d s t).1| ≤ 1 ∧ |(tsWheels d s t).2.1| ≤ 1 ∧
     |(tsWheels d s t).2.2.1| ≤ 1 ∧ |(tsWheels d s t).2.2.2| ≤ 1) ∧
    (|(jsWheels d s t).1| ≤ 1 ∧ |(jsWheels d s t).2.1| ≤ 1 ∧
     |(jsWheels d s t).2.2.1| ≤ 1 ∧ |(jsWheels d s t).2.2.2| ≤ 1) := by
  obtain ⟨t1, t2, t3, t4, t5⟩ := tsMaxVel_spec (tsWheelsRaw d s t)
  obtain ⟨j1, j2, j3, j4, j5⟩ := jsMaxM_spec (jsWheelsRaw d s t)
  exact ⟨⟨abs_div_le_one_of_abs_le _ _ t2 t5, abs_div_le_one_of_abs_le _ _ t1 t5,
          abs_div_le_one_of_abs_le _ _ t3 t5, abs_div_le_one_of_abs_le _ _ t4 t5⟩,
         ⟨abs_div_le_one_of_abs_le _ _ j1 j5, abs_div_le_one_of_abs_le _ _ j2 j5,
          abs_div_le_one_of_abs_le _ _ j3 j5, abs_div_le_one_of_abs_le _ _ j4 j5⟩⟩

/-- C7 counterexample: the second src/main.js variant's tick has no
try/catch, so a tick whose body throws ends fatally — the claim that
every variant catches and logs tick exceptions fails on it. -/
theorem c7_counterexample_variant_b_fatal :
    tickJsB (Except.error "boom") = TickOutcome.fatal "boom" ∧
    (tickJsB (Except.error "boom")).nonfatal = false :=
  ⟨rfl, rfl⟩

/-- C7 amended: in the TypeScript variant and the first src/main.js variant
all simulation work of a tick is wrapped so that any exception is caught
and logged (the first JS variant also reports it to the visible log
panel) without stopping the recurring timer; the second src/main.js
variant's tick has no try/catch, so an exception there propagates out of
the tick. -/
theorem c7_amended_catch_per_variant :
    (∀ body, (tickTS body).nonfatal = true) ∧
    (∀ body, (tickJsA body).nonfatal = true) ∧
    (∀ e, tickTS (Except.error e) = TickOutcome.caughtLogged e) ∧
    (∀ e, tickJsA (Except.error e) = TickOutcome.caughtLoggedPanel e) ∧
    (∀ e, tickJsB (Except.error e) = TickOutcome.fatal e) := by
  refine ⟨?_, ?_, fun _ => rfl, fun _ => rfl, fun _ => rfl⟩ <;>
    (intro body; cases body <;> rfl)

/-- C5 counterexample: at `now = 1 * cycleDurationMs = 4000` the cycle index
is 1 (the FWD state), not 0, and with the centered random draw the
emitted drive is 0.8, far outside the ±0.05 bound around 0. -/
theorem c5_counterexample_one_cycle :
    cycleIndex (1 * cycleDuration) ≠ 0 ∧
    ¬ |(emittedMotion (fun _ => 0) (1 * cycleDuration) (1/2) (1/2) (1/2)).1|
        ≤ 0.05 := by
  have h1 : cycleIndex (1 * cycleDuration) = 1 := rfl
  constructor
  · rw [h1]; exact one_ne_zero
  · rw [show (1 * cycleDuration : ℕ) = 4000 from rfl]
    norm_num [emittedMotion, motionSetpoint, show cycleIndex 4000 = 1 from rfl,
      addNoise, abs_le]

/-- C5 amended: at a timestamp of exactly k times the full cycle period
(stateCount * cycleDurationMs = 20000 ms) the cycle index is 0 (the IDLE
state), so the emitted drive, strafe and turn are each within the ±0.05
noise bound of 0. -/
theorem c5_amended_full_period_idle (sine : ℚ → ℚ) (k : ℕ) (rd rs rt : ℚ)
    (hd0 : 0 ≤ rd) (hd1 : rd < 1) (hs0 : 0 ≤ rs) (hs1 : rs < 1)
    (ht0 : 0 ≤ rt) (ht1 : rt < 1) :
    cycleIndex (k * (stateCount * cycleDuration)) = 0 ∧
    |(emittedMotion sine (k * (stateCount * cycleDuration)) rd rs rt).1| ≤ 0.05 ∧
    |(emittedMotion sine (k * (stateCount * cycleDuration)) rd rs rt).2.1| ≤ 0.05 ∧
    |(emittedMotion sine (k * (stateCount * cycleDuration)) rd rs rt).2.2| ≤ 0.05 := by
  have h0 : cycleIndex (k * (stateCount * cycleDuration)) = 0 := by
    unfold cycleIndex stateCount cycleDuration
    omega
  refine ⟨h0, ?_, ?_, ?_⟩ <;>
  · simp only [emittedMotion, motionSetpoint, h0, addNoise, zero_add]
    rw [abs_le]
    constructor <;> nlinarith

/-- Witness for the amended C5 at k = 1 with all random draws equal to 0. -/
theorem c5_amended_full_period_idle_witness :
    ((0:ℚ) ≤ 0 ∧ (0:ℚ) < 1) ∧
    (cycleIndex (1 * (stateCount * cycleDuration)) = 0 ∧
     |(emittedMotion (fun _ => 0) (1 * (stateCount * cycleDuration)) 0 0 0).1| ≤ 0.05 ∧
     |(emittedMotion (fun _ => 0) (1 * (stateCount * cycleDuration)) 0 0 0).2.1| ≤ 0.05 ∧
     |(emittedMotion (fun _ => 0) (1 * (stateCount * cycleDuration)) 0 0 0).2.2| ≤ 0.05) :=
  ⟨⟨le_refl 0, zero_lt_one⟩,
   c5_amended_full_period_idle (fun _ => 0) 1 0 0 0 (le_refl 0) zero_lt_one
     (le_refl 0) zero_lt_one (le_refl 0) zero_lt_one⟩

/-- C6 counterexample: on an idle tick with centered random draws the
simulated voltage is exactly the base voltage 24.8, which is above the
documented chart max of 24 — so the voltage does not always lie within
the 20 to 24 band. -/
theorem c6_counterexample_voltage_above_band :
    simVoltage (emittedMotion (fun _ => 0) 0 (1/2) (1/2) (1/2)).1
      (emittedMotion (fun _ => 0) 0 (1/2) (1/2) (1/2)).2.1 (1/2) = 24.8 ∧
    voltageChartMax <
      simVoltage (emittedMotion (fun _ => 0) 0 (1/2) (1/2) (1/2)).1
        (emittedMotion (fun _ => 0) 0 (1/2) (1/2) (1/2)).2.1 (1/2) := by
  norm_num [simVoltage, baseVoltage, voltageChartMax, emittedMotion,
    motionSetpoint, show cycleIndex 0 = 0 from rfl, addNoise]

/-- C6 amended: on every tick the simulated voltage equals the fixed base
voltage 24.8 minus 1.5 times the load (|drive| + |strafe|) plus a noise
term bounded by ±0.05; it is not always inside the documented 20-24 chart
band — it only ever falls below the base voltage plus the noise bound. -/
theorem c6_amended_voltage_formula (d s r : ℚ) (h0 : 0 ≤ r) (h1 : r < 1) :
    simVoltage d s r = baseVoltage - (|d| + |s|) * 1.5 + (r - 0.5) * 0.1 ∧
    |simVoltage d s r - (baseVoltage - (|d| + |s|) * 1.5)| ≤ 0.05 ∧
    simVoltage d s r ≤ baseVoltage + 0.05 := by
  have hn : simVoltage d s r - (baseVoltage - (|d| + |s|) * 1.5)
      = (r - 0.5) * 0.1 := by
    unfold simVoltage
    ring
  refine ⟨rfl, ?_, ?_⟩
  · rw [hn, abs_le]
    constructor <;> nlinarith
  · have ha : 0 ≤ |d| := abs_nonneg d
    have hb : 0 ≤ |s| := abs_nonneg s
    unfold simVoltage baseVoltage
    nlinarith

/-- Witness for the amended C6 at the idle command with a zero random draw. -/
theorem c6_amended_voltage_formula_witness :
    ((0:ℚ) ≤ 0 ∧ (0:ℚ) < 1) ∧
    (simVoltage 0 0 0 = baseVoltage - (|(0:ℚ)| + |(0:ℚ)|) * 1.5 + ((0:ℚ) - 0.5) * 0.1 ∧
     |simVoltage 0 0 0 - (baseVoltage - (|(0:ℚ)| + |(0:ℚ)|) * 1.5)| ≤ 0.05 ∧
     simVoltage 0 0 0 ≤ baseVoltage + 0.05) :=
  ⟨⟨le_refl 0, zero_lt_one⟩,
   c6_amended_voltage_formula 0 0 0 (le_refl 0) zero_lt_one⟩

/-- The generator loop records exactly one value per unit of fuel. -/
theorem denseGo_length (mn mx : ℚ) (rwalk rjit : ℕ → ℚ) :
    ∀ (n i : ℕ) (val : ℚ), (denseGo mn mx rwalk rjit i n val).length = n := by
  intro n
  induction n with
  | zero => intro i val; rfl
  | succ m ih =>
    intro i val
    simp [denseGo, ih]

/-- Clamping lands inside the interval whenever the bounds are ordered. -/
theorem clampQ_mem (mn mx x : ℚ) (h : mn ≤ mx) :
    mn ≤ clampQ mn mx x ∧ clampQ mn mx x ≤ mx :=
  ⟨le_max_left _ _, max_le h (min_le_left _ _)⟩

/-- Rounding to two decimals stays inside an interval whose endpoints are
integer multiples of 1/100. -/
theorem roundTo2_mem (a b : ℤ) (x : ℚ) (h1 : (a : ℚ) / 100 ≤ x)
    (h2 : x ≤ (b : ℚ) / 100) :
    (a : ℚ) / 100 ≤ roundTo2 x ∧ roundTo2 x ≤ (b : ℚ) / 100 := by
  have hlo : a ≤ round (x * 100) := by
    rw [round_eq, Int.le_floor]
    have : (a : ℚ) ≤ x * 100 := by linarith
    linarith
  have hhi : round (x * 100) ≤ b := by
    rw [round_eq]
    have hx : x * 100 ≤ (b : ℚ) := by linarith
    have : (⌊x * 100 + 1 / 2⌋ : ℤ) < b + 1 := by
      rw [Int.floor_lt]
      push_cast
      linarith
    omega
  constructor
  · unfold roundTo2
    have : (a : ℚ) ≤ (round (x * 100) : ℤ) := by exact_mod_cast hlo
    linarith
  · unfold roundTo2
    have : ((round (x * 100) : ℤ) : ℚ) ≤ (b : ℚ) := by exact_mod_cast hhi
    linarith

/-- One generator step (perturb then clamp) lands inside the interval
whenever the bounds are ordered. -/
theorem denseStep_mem (mn mx rw rj val : ℚ) (h : mn ≤ mx) :
    mn ≤ denseStep mn mx rw rj val ∧ denseStep mn mx rw rj val ≤ mx := by
  unfold denseStep
  exact clampQ_mem _ _ _ h

/-- Every value the generator loop records lies inside the interval when the
bounds are ordered multiples of 1/100. -/
theorem denseGo_mem (a b : ℤ) (hab : a ≤ b) (rwalk rjit : ℕ → ℚ) :
    ∀ (n i : ℕ) (val x : ℚ),
      x ∈ denseGo ((a : ℚ) / 100) ((b : ℚ) / 100) rwalk rjit i n val →
      (a : ℚ) / 100 ≤ x ∧ x ≤ (b : ℚ) / 100 := by
  have hmn : (a : ℚ) / 100 ≤ (b : ℚ) / 100 := by
    have : (a : ℚ) ≤ (b : ℚ) := by exact_mod_cast hab
    linarith
  intro n
  induction n with
  | zero => intro i val x hx; simp [denseGo] at hx
  | succ m ih =>
    intro i val x hx
    simp only [denseGo, List.mem_cons] at hx
    rcases hx with hx | hx
    · subst hx
      obtain ⟨hc1, hc2⟩ := denseStep_mem _ _ (rwalk i) (rjit i) val hmn
      exact roundTo2_mem a b _ hc1 hc2
    · exact ih (i + 1) _ x hx

/-- C8 counterexample: with bounds min = max = 0.006 (which satisfy
min ≤ max) and initial value 0.006, the single generated point is the
2-decimal rounding 0.01, which lies outside the closed interval
[0.006, 0.006] — so the returned values do not always lie within
[min, max] for every bound pair. -/
theorem c8_counterexample_rounding_escapes_interval :
    (6/1000 : ℚ) ≤ 6/1000 ∧
    generateDenseData 1 (6/1000) (6/1000) (6/1000)
      (fun _ => 1/2) (fun _ => 1/2) = [1/100] ∧
    ¬ (1/100 : ℚ) ≤ 6/1000 := by
  refine ⟨le_refl _, ?_, by norm_num⟩
  norm_num [generateDenseData, denseGo, denseStep, clampQ, roundTo2, round_eq]

/-- C8 amended: for every point count n, every bound pair and every initial
value, the dense-series generator returns a list of exactly n values;
and whenever the bounds are ordered integer multiples of 0.01 (as at
every call site), every returned value lies within the closed interval
[min, max].  For bounds off that 2-decimal grid the final rounding can
escape the interval. -/
theorem c8_amended_dense_series_bounds :
    (∀ (points : ℕ) (mn mx init : ℚ) (rwalk rjit : ℕ → ℚ),
      (generateDenseData points mn mx init rwalk rjit).length = points) ∧
    (∀ (points : ℕ) (a b : ℤ) (init : ℚ) (rwalk rjit : ℕ → ℚ), a ≤ b →
      ∀ x ∈ generateDenseData points ((a : ℚ) / 100) ((b : ℚ) / 100) init
          rwalk rjit,
        (a : ℚ) / 100 ≤ x ∧ x ≤ (b : ℚ) / 100) := by
  constructor
  · intro points mn mx init rwalk rjit
    unfold generateDenseData
    exact denseGo_length mn mx rwalk rjit points 0 _
  · intro points a b init rwalk rjit hab x hx
    exact denseGo_mem a b hab rwalk rjit points 0 _ x hx

/-- Witness for the amended C8: 3 points over the band [0, 1] (bounds 0/100
and 100/100). -/
theorem c8_amended_dense_series_bounds_witness :
    (generateDenseData 3 0 1 (1/2) (fun _ => 1/2) (fun _ => 1/2)).length = 3 ∧
    ((0 : ℤ) ≤ 100 ∧
     ∀ x ∈ generateDenseData 3 (((0 : ℤ) : ℚ) / 100) (((100 : ℤ) : ℚ) / 100)
         (1/2) (fun _ => 1/2) (fun _ => 1/2),
       ((0 : ℤ) : ℚ) / 100 ≤ x ∧ x ≤ ((100 : ℤ) : ℚ) / 100) :=
  ⟨c8_amended_dense_series_bounds.1 3 0 1 (1/2) (fun _ => 1/2) (fun _ => 1/2),
   by decide,
   c8_amended_dense_series_bounds.2 3 0 100 (1/2) (fun _ => 1/2) (fun _ => 1/2)
     (by decide)⟩

end RobotDashboard
